import Mathlib

/-
Shallow embedding of the ToDos REST API (`todos.py`): an in-memory todo store
with HAL-style hypermedia representations, offset/size pagination and CRUD
handlers.  The mutable global list `todos` is modelled by explicit state
passing: every mutating handler takes the current store and returns the
response together with the resulting store.  URLs built by `url_for` are
modelled by the data that parameterises them (the target id, or the
offset/size query parameters of a collection link).
-/

namespace ToDoApi

/-- One todo entity, as stored: `{'id': ..., 'task': ..., 'done': ...}`. -/
structure Todo where
  id : Nat
  task : String
  done : Bool
  deriving Repr, DecidableEq

/-- The sample in-memory to-do list the application starts with. -/
def initial_todos : List Todo :=
  [ { id := 1, task := "Learn Flask", done := false },
    { id := 2, task := "Build a REST API", done := false },
    { id := 3, task := "Test the API", done := false },
    { id := 4, task := "Watch another course from Kesha", done := false },
    { id := 5, task := "Learn Laravel", done := false },
    { id := 6, task := "Build a GraphQL API", done := false },
    { id := 7, task := "Learn Java Spring", done := false },
    { id := 8, task := "Build a gRPC API", done := false },
    { id := 9, task := "Learn .NET", done := false },
    { id := 10, task := "Build a SOAP API", done := false },
    { id := 11, task := "Learn Django", done := false },
    { id := 12, task := "Document an API", done := false },
    { id := 13, task := "Learn Node.js", done := false },
    { id := 14, task := "Secure an API", done := false },
    { id := 15, task := "Learn Next.js", done := false },
    { id := 16, task := "Build a WebSockets connection", done := false } ]

/-- `find_todo`: first element of the store whose id matches, else `none`
(`next((todo for todo in todos if todo['id'] == todo_id), None)`). -/
def find_todo (store : List Todo) (todo_id : Nat) : Option Todo :=
  match store with
  | [] => none
  | t :: ts => if t.id = todo_id then some t else find_todo ts todo_id

/-- HAL representation of one todo: the item fields plus the `_links` map.
Each item link is modelled by the id that `url_for` receives; the
`collection` link takes no parameters, so it is modelled by its presence. -/
structure TodoRepr where
  id : Nat
  task : String
  done : Bool
  self_id : Nat
  update_id : Nat
  delete_id : Nat
  has_collection_link : Bool
  deriving Repr, DecidableEq

/-- `add_todo_links`: spread the todo's fields and attach the four links
(`self`, `update`, `delete` target this todo's id; `collection` is fixed). -/
def add_todo_links (t : Todo) : TodoRepr :=
  { id := t.id, task := t.task, done := t.done,
    self_id := t.id, update_id := t.id, delete_id := t.id,
    has_collection_link := true }

/-- A collection navigation link, modelled by the `offset` and `size` query
parameters `url_for('get_todos', offset=..., size=...)` receives. -/
structure PageLink where
  offset : Int
  size : Int
  deriving Repr, DecidableEq

/-- The `_links` map of a collection representation: `self` and `create`
always, `prev` and `next` conditionally. -/
structure CollectionLinks where
  self : PageLink
  has_create : Bool
  prev : Option PageLink
  next : Option PageLink
  deriving Repr, DecidableEq

/-- The `page` pagination metadata block. -/
structure Page where
  offset : Int
  size : Int
  total_items : Nat
  deriving Repr, DecidableEq

/-- A HAL collection representation: `_links`, `_embedded.todos`, `page`. -/
structure CollectionRepr where
  links : CollectionLinks
  embedded : List TodoRepr
  page : Page
  deriving Repr, DecidableEq

/-- `add_collection_links`: navigation links (`prev` iff `offset > 0` at
`max(offset - size, 0)`, `next` iff `offset + size < total_items` at
`offset + size`), the embedded items each through `add_todo_links`, and the
`page` block echoing the parameters verbatim. -/
def add_collection_links (items : List Todo) (offset size : Int)
    (total_items : Nat) : CollectionRepr :=
  { links :=
      { self := { offset := offset, size := size },
        has_create := true,
        prev :=
          if 0 < offset then
            some { offset := max (offset - size) 0, size := size }
          else none,
        next :=
          if offset + size < (total_items : Int) then
            some { offset := offset + size, size := size }
          else none },
    embedded := items.map add_todo_links,
    page := { offset := offset, size := size, total_items := total_items } }

/-- Outcome of `GET /todos`: 400 with an error payload, or 200 with the
collection representation. -/
inductive GetTodosResult where
  | badRequest (error : String)
  | ok (body : CollectionRepr)
  deriving Repr, DecidableEq

/-- HTTP status code of a `GET /todos` response. -/
def GetTodosResult.status : GetTodosResult → Nat
  | .badRequest _ => 400
  | .ok _ => 200

/-- `get_todos` (`GET /todos`): query parameters default to `offset=0`,
`size=5` when absent; reject `offset < 0` or `size <= 0` with 400; otherwise
window the store with Python slice `todos[offset:offset + size]` and build
the collection representation with `total_items = len(todos)` taken before
windowing. -/
def get_todos (store : List Todo) (offset_param size_param : Option Int) :
    GetTodosResult :=
  let offset := offset_param.getD 0
  let size := size_param.getD 5
  if offset < 0 ∨ size ≤ 0 then
    .badRequest
      "Invalid pagination parameters. Offset must be >= 0 and size must be > 0."
  else
    let total_items := store.length
    let paged_items := (store.drop offset.toNat).take size.toNat
    .ok (add_collection_links paged_items offset size total_items)

/-- Outcome of `GET /todos/{id}`: 404 or 200 with the item representation. -/
inductive GetTodoResult where
  | notFound (error : String)
  | ok (body : TodoRepr)
  deriving Repr, DecidableEq

/-- HTTP status code of a `GET /todos/{id}` response. -/
def GetTodoResult.status : GetTodoResult → Nat
  | .notFound _ => 404
  | .ok _ => 200

/-- `get_todo` (`GET /todos/{id}`). -/
def get_todo (store : List Todo) (todo_id : Nat) : GetTodoResult :=
  match find_todo store todo_id with
  | none => .notFound "To-do item not found"
  | some t => .ok (add_todo_links t)

/-- A JSON request body as the handlers read it: an optional `task` field and
an optional `done` field (`none` models an absent key).  The whole body is
passed as `Option Body`; `none` models an absent or null JSON document. -/
structure Body where
  task : Option String
  done : Option Bool
  deriving Repr, DecidableEq

/-- Outcome of `POST /todos`, carrying the resulting store. -/
inductive CreateResult where
  | badRequest (error : String) (store : List Todo)
  | created (message : String) (todo : TodoRepr) (store : List Todo)
  deriving Repr, DecidableEq

/-- HTTP status code of a `POST /todos` response. -/
def CreateResult.status : CreateResult → Nat
  | .badRequest _ _ => 400
  | .created _ _ _ => 201

/-- The store after a `POST /todos` request. -/
def CreateResult.store : CreateResult → List Todo
  | .badRequest _ s => s
  | .created _ _ s => s

/-- The id expression of `create_todo`:
`max(todo['id'] for todo in todos) + 1 if todos else 1`, over a list of ids. -/
def max_id_plus_one : List Nat → Nat
  | [] => 1
  | x :: xs => xs.foldl Nat.max x + 1

/-- The id assigned to a newly created todo. -/
def new_todo_id (store : List Todo) : Nat :=
  max_id_plus_one (store.map Todo.id)

/-- `create_todo` (`POST /todos`): 400 when the body is absent/empty or has
no `task` key (`if not data or 'task' not in data`); otherwise append a new
todo with the next id, the given task and `done` defaulting to `False`. -/
def create_todo (store : List Todo) (data : Option Body) : CreateResult :=
  match data with
  | none => .badRequest "Task description is required" store
  | some d =>
    match d.task with
    | none => .badRequest "Task description is required" store
    | some task =>
      let new_todo : Todo :=
        { id := new_todo_id store, task := task, done := d.done.getD false }
      .created "To-do item created" (add_todo_links new_todo)
        (store ++ [new_todo])

/-- Outcome of `PUT /todos/{id}`, carrying the resulting store. -/
inductive UpdateResult where
  | notFound (error : String) (store : List Todo)
  | ok (message : String) (todo : TodoRepr) (store : List Todo)
  deriving Repr, DecidableEq

/-- HTTP status code of a `PUT /todos/{id}` response. -/
def UpdateResult.status : UpdateResult → Nat
  | .notFound _ _ => 404
  | .ok _ _ _ => 200

/-- The store after a `PUT /todos/{id}` request. -/
def UpdateResult.store : UpdateResult → List Todo
  | .notFound _ s => s
  | .ok _ _ s => s

/-- In-place mutation of the dict returned by `find_todo`: the first element
of the store whose id matches is replaced, the rest is unchanged. -/
def replace_first (store : List Todo) (todo_id : Nat) (u : Todo) : List Todo :=
  match store with
  | [] => []
  | t :: ts =>
    if t.id = todo_id then u :: ts else t :: replace_first ts todo_id u

/-- `update_todo` (`PUT /todos/{id}`): 404 when the id is absent; otherwise
`data = request.json or {}` and each of `task`, `done` is overwritten by
`data.get(field, current value)`, so absent fields keep their values. -/
def update_todo (store : List Todo) (todo_id : Nat) (data : Option Body) :
    UpdateResult :=
  match find_todo store todo_id with
  | none => .notFound "To-do item not found" store
  | some todo =>
    let d := data.getD { task := none, done := none }
    let updated : Todo :=
      { id := todo.id, task := d.task.getD todo.task,
        done := d.done.getD todo.done }
    .ok "To-do item updated" (add_todo_links updated)
      (replace_first store todo_id updated)

/-- Outcome of `DELETE /todos/{id}`: always a 200 payload with a message and
a `collection` link, plus the filtered store. -/
structure DeleteResult where
  status : Nat
  message : String
  has_collection_link : Bool
  store : List Todo
  deriving Repr, DecidableEq

/-- `delete_todo` (`DELETE /todos/{id}`): unconditionally filter the store
(`todos = [todo for todo in todos if todo['id'] != todo_id]`) and answer 200. -/
def delete_todo (store : List Todo) (todo_id : Nat) : DeleteResult :=
  { status := 200,
    message := "To-do item with ID " ++ toString todo_id ++ " deleted",
    has_collection_link := true,
    store := store.filter (fun t => t.id != todo_id) }

/-! ### Helper lemmas -/

theorem le_foldl_max (xs : List Nat) (x : Nat) :
    x ≤ xs.foldl Nat.max x ∧ ∀ a ∈ xs, a ≤ xs.foldl Nat.max x := by
  induction xs generalizing x with
  | nil => exact ⟨Nat.le_refl x, by simp⟩
  | cons y ys ih =>
    refine ⟨?_, ?_⟩
    · exact Nat.le_trans (Nat.le_max_left x y) (ih (Nat.max x y)).1
    · intro a ha
      rcases List.mem_cons.mp ha with h | h
      · subst h
        exact Nat.le_trans (Nat.le_max_right x a) (ih (Nat.max x a)).1
      · exact (ih (Nat.max x y)).2 a h

theorem lt_max_id_plus_one (l : List Nat) (a : Nat) (ha : a ∈ l) :
    a < max_id_plus_one l := by
  cases l with
  | nil => cases ha
  | cons x xs =>
    rcases List.mem_cons.mp ha with h | h
    · subst h
      exact Nat.lt_succ_of_le (le_foldl_max xs a).1
    · exact Nat.lt_succ_of_le ((le_foldl_max xs x).2 a h)

theorem find_todo_id (store : List Todo) (todo_id : Nat) (t : Todo)
    (h : find_todo store todo_id = some t) : t.id = todo_id := by
  induction store with
  | nil => simp [find_todo] at h
  | cons u us ih =>
    by_cases hu : u.id = todo_id
    · simp [find_todo, hu] at h
      subst h
      exact hu
    · simp [find_todo, hu] at h
      exact ih h

theorem replace_first_self (store : List Todo) (todo_id : Nat) (t : Todo)
    (h : find_todo store todo_id = some t) :
    replace_first store todo_id t = store := by
  induction store with
  | nil => rfl
  | cons u us ih =>
    by_cases hu : u.id = todo_id
    · simp [find_todo, hu] at h
      subst h
      simp [replace_first, hu]
    · simp [find_todo, hu] at h
      simp [replace_first, hu, ih h]

theorem find_todo_replace_first (store : List Todo) (todo_id : Nat)
    (t u : Todo) (hfind : find_todo store todo_id = some t)
    (hu : u.id = todo_id) :
    find_todo (replace_first store todo_id u) todo_id = some u := by
  induction store with
  | nil => simp [find_todo] at hfind
  | cons v vs ih =>
    by_cases hv : v.id = todo_id
    · simp [replace_first, hv, find_todo, hu]
    · simp [find_todo, hv] at hfind
      simp [replace_first, hv, find_todo, ih hfind]

theorem foldl_max_mem (xs : List Nat) (x : Nat) :
    xs.foldl Nat.max x = x ∨ xs.foldl Nat.max x ∈ xs := by
  induction xs generalizing x with
  | nil => exact Or.inl rfl
  | cons y ys ih =>
    rcases ih (Nat.max x y) with h | h
    · rw [List.foldl_cons, h]
      by_cases h2 : x ≤ y
      · have hm : Nat.max x y = y := Nat.max_eq_right h2
        rw [hm]
        exact Or.inr (List.mem_cons_self y ys)
      · have hm : Nat.max x y = x := Nat.max_eq_left (by omega)
        rw [hm]
        exact Or.inl rfl
    · rw [List.foldl_cons]
      exact Or.inr (List.mem_cons_of_mem y h)

theorem new_todo_id_spec (store : List Todo) (hs : store ≠ []) :
    ∃ t ∈ store, new_todo_id store = t.id + 1 ∧ ∀ u ∈ store, u.id ≤ t.id := by
  cases store with
  | nil => exact absurd rfl hs
  | cons v vs =>
    have hle := le_foldl_max (vs.map Todo.id) v.id
    have hall : ∀ u ∈ v :: vs, u.id ≤ (vs.map Todo.id).foldl Nat.max v.id := by
      intro u hu
      rcases List.mem_cons.mp hu with rfl | hu2
      · exact hle.1
      · exact hle.2 u.id (List.mem_map_of_mem Todo.id hu2)
    rcases foldl_max_mem (vs.map Todo.id) v.id with h | h
    · refine ⟨v, List.mem_cons_self v vs, ?_, ?_⟩
      · simp [new_todo_id, max_id_plus_one, h]
      · intro u hu
        have h2 := hall u hu
        rw [h] at h2
        exact h2
    · rcases List.mem_map.mp h with ⟨t, htv, hid⟩
      refine ⟨t, List.mem_cons_of_mem v htv, ?_, ?_⟩
      · simp [new_todo_id, max_id_plus_one, hid]
      · intro u hu
        have h2 := hall u hu
        rw [← hid] at h2
        exact h2

theorem replace_first_map_id (store : List Todo) (todo_id : Nat) (u : Todo)
    (hu : u.id = todo_id) :
    (replace_first store todo_id u).map Todo.id = store.map Todo.id := by
  induction store with
  | nil => rfl
  | cons v vs ih =>
    by_cases hv : v.id = todo_id
    · simp [replace_first, hv, hu]
    · simp [replace_first, hv, ih]

/-! ### Claims -/

/-- Claim C1: in the collection representation built by
`add_collection_links`, for every `offset ≥ 0`, `size > 0` and
`total_items`, the `prev` link is present iff `offset > 0` and its offset
query parameter is `max(offset - size, 0)`, and the `next` link is present
iff `offset + size < total_items` and its offset query parameter is exactly
`offset + size`. -/
theorem prev_next_link_policy (items : List Todo) (offset size : Int)
    (total_items : Nat) (hoff : 0 ≤ offset) (hsize : 0 < size) :
    (((add_collection_links items offset size total_items).links.prev).isSome
        ↔ 0 < offset) ∧
    (0 < offset →
      (add_collection_links items offset size total_items).links.prev =
        some { offset := max (offset - size) 0, size := size }) ∧
    (((add_collection_links items offset size total_items).links.next).isSome
        ↔ offset + size < (total_items : Int)) ∧
    (offset + size < (total_items : Int) →
      (add_collection_links items offset size total_items).links.next =
        some { offset := offset + size, size := size }) := by
  by_cases h1 : 0 < offset <;>
    by_cases h2 : offset + size < (total_items : Int) <;>
      simp [add_collection_links, h1, h2]

/-- Witness for C1 at `offset = 15`, `size = 5`, `total_items = 16`: the
`prev` link is present with offset `max(15 - 5, 0) = 10`. -/
theorem prev_next_link_policy_witness :
    (add_collection_links [] 15 5 16).links.prev =
      some { offset := max (15 - 5 : Int) 0, size := 5 } :=
  (prev_next_link_policy [] 15 5 16 (by decide) (by decide)).2.1 (by decide)

/-- Claim C2: the `page` block echoes `offset`, `size` and `total_items`
verbatim, whatever the embedded window holds; through the list handler,
`total_items` is the store's length. -/
theorem page_block_verbatim (items store : List Todo) (offset size : Int)
    (total_items : Nat) (hoff : 0 ≤ offset) (hsize : 0 < size) :
    (add_collection_links items offset size total_items).page =
      { offset := offset, size := size, total_items := total_items } ∧
    ∃ body, get_todos store (some offset) (some size) =
        GetTodosResult.ok body ∧
      body.page =
        { offset := offset, size := size, total_items := store.length } := by
  have h1 : ¬ offset < 0 := by omega
  have h2 : ¬ size ≤ 0 := by omega
  refine ⟨rfl,
    ⟨add_collection_links ((store.drop offset.toNat).take size.toNat) offset
        size store.length, ?_, rfl⟩⟩
  simp [get_todos, h1, h2]

/-- Witness for C2 at `offset = 15`, `size = 5` on the 16-item sample store:
the last page embeds fewer than `size` items, yet `page` reports
`{15, 5, 16}`. -/
theorem page_block_verbatim_witness :
    ∃ body, get_todos initial_todos (some 15) (some 5) =
        GetTodosResult.ok body ∧
      body.page =
        { offset := 15, size := 5, total_items := initial_todos.length } :=
  (page_block_verbatim [] initial_todos 15 5 0 (by decide) (by decide)).2

/-- Claim C3: for every store of length `N` and valid `offset ≥ 0`,
`size > 0`, the embedded window is `store[offset : offset + size]` with
Python slice semantics: empty when `offset ≥ N`, truncating to the tail,
preserving the store's order (a sublist), with `total_items = N` computed
before windowing. -/
theorem window_is_slice (store : List Todo) (offset size : Int)
    (hoff : 0 ≤ offset) (hsize : 0 < size) :
    ∃ body, get_todos store (some offset) (some size) =
        GetTodosResult.ok body ∧
      body.embedded =
        ((store.drop offset.toNat).take size.toNat).map add_todo_links ∧
      body.embedded.length =
        min size.toNat (store.length - offset.toNat) ∧
      ((store.length : Int) ≤ offset → body.embedded = []) ∧
      body.embedded.Sublist (store.map add_todo_links) ∧
      body.page.total_items = store.length := by
  have h1 : ¬ offset < 0 := by omega
  have h2 : ¬ size ≤ 0 := by omega
  refine ⟨add_collection_links ((store.drop offset.toNat).take size.toNat)
      offset size store.length, ?_, rfl, ?_, ?_, ?_, rfl⟩
  · simp [get_todos, h1, h2]
  · simp [add_collection_links]
  · intro hN
    have hlen : store.length ≤ offset.toNat := by omega
    simp [add_collection_links, List.drop_eq_nil_of_le hlen]
  · exact List.Sublist.map add_todo_links
      (((store.drop offset.toNat).take_sublist size.toNat).trans
        (store.drop_sublist offset.toNat))

/-- Witness for C3 at `offset = 15`, `size = 5` on the 16-item sample store:
the window truncates to the single tail item. -/
theorem window_is_slice_witness :
    ∃ body, get_todos initial_todos (some 15) (some 5) =
        GetTodosResult.ok body ∧
      body.embedded.length = 1 := by
  obtain ⟨body, heq, -, hlen, -, -, -⟩ :=
    window_is_slice initial_todos 15 5 (by decide) (by decide)
  refine ⟨body, heq, ?_⟩
  rw [hlen]
  rfl

/-- Claim C4: `GET /todos` answers 400 with an error payload iff
`offset < 0` or `size ≤ 0` after applying the defaults `offset = 0`,
`size = 5` for omitted parameters, and 200 with the collection
representation otherwise. -/
theorem list_validation (store : List Todo) (o s : Option Int) :
    ((get_todos store o s).status = 400 ↔
      (o.getD 0 < 0 ∨ s.getD 5 ≤ 0)) ∧
    ((get_todos store o s).status = 200 ↔
      ¬ (o.getD 0 < 0 ∨ s.getD 5 ≤ 0)) ∧
    ((o.getD 0 < 0 ∨ s.getD 5 ≤ 0) →
      get_todos store o s = GetTodosResult.badRequest
        "Invalid pagination parameters. Offset must be >= 0 and size must be > 0.") ∧
    (¬ (o.getD 0 < 0 ∨ s.getD 5 ≤ 0) →
      ∃ body, get_todos store o s = GetTodosResult.ok body) ∧
    get_todos store none none = get_todos store (some 0) (some 5) := by
  by_cases h : o.getD 0 < 0 ∨ s.getD 5 ≤ 0 <;>
    simp [get_todos, GetTodosResult.status, h]

/-- Witness for C4 at `offset = -1` with `size` omitted on the empty store:
the handler answers 400. -/
theorem list_validation_witness :
    (get_todos [] (some (-1)) none).status = 400 :=
  (list_validation [] (some (-1)) none).1.mpr (Or.inl (by decide))

/-- Claim C5: `PUT /todos/{id}` answers 404 when the id is absent; otherwise
it merges the provided `task`/`done` fields over the existing item, keeping
absent fields unchanged, and answers 200 with a message and the item
representation reflecting the merged values (which are also what the store
then holds at that id). -/
theorem update_merges_fields (store : List Todo) (todo_id : Nat)
    (data : Option Body) :
    (find_todo store todo_id = none →
      update_todo store todo_id data =
        UpdateResult.notFound "To-do item not found" store) ∧
    (∀ t, find_todo store todo_id = some t →
      ∃ body2 store2,
        update_todo store todo_id data =
          UpdateResult.ok "To-do item updated" body2 store2 ∧
        body2.id = t.id ∧
        body2.task = (data.getD { task := none, done := none }).task.getD t.task ∧
        body2.done = (data.getD { task := none, done := none }).done.getD t.done ∧
        find_todo store2 todo_id =
          some { id := t.id,
                 task := (data.getD { task := none, done := none }).task.getD t.task,
                 done := (data.getD { task := none, done := none }).done.getD t.done }) := by
  constructor
  · intro h
    simp [update_todo, h]
  · intro t ht
    refine ⟨add_todo_links
        { id := t.id,
          task := (data.getD { task := none, done := none }).task.getD t.task,
          done := (data.getD { task := none, done := none }).done.getD t.done },
      replace_first store todo_id
        { id := t.id,
          task := (data.getD { task := none, done := none }).task.getD t.task,
          done := (data.getD { task := none, done := none }).done.getD t.done },
      ?_, rfl, rfl, rfl, ?_⟩
    · simp [update_todo, ht]
    · exact find_todo_replace_first store todo_id t _ ht
        (find_todo_id store todo_id t ht)

/-- Witness for C5: `PUT /todos/3` with body `{"done": true}` on the sample
store keeps `task = "Test the API"` and sets `done = true`. -/
theorem update_merges_fields_witness :
    ∃ body2 store2,
      update_todo initial_todos 3 (some { task := none, done := some true }) =
        UpdateResult.ok "To-do item updated" body2 store2 ∧
      body2.id = 3 ∧ body2.task = "Test the API" ∧ body2.done = true := by
  obtain ⟨body2, store2, heq, hid, htask, hdone, -⟩ :=
    (update_merges_fields initial_todos 3
        (some { task := none, done := some true })).2
      { id := 3, task := "Test the API", done := false } (by rfl)
  exact ⟨body2, store2, heq, hid, htask, hdone⟩

/-- Counterexample to claim C6 as stated: the body `{"task": ""}` lacks a
non-empty `task`, yet `POST /todos` answers 201, not 400 — the handler only
checks that the `task` key is present. -/
theorem create_empty_task_counterexample :
    (¬ ∃ str, (some (Body.mk (some "") none)).bind Body.task = some str ∧
        str ≠ "") ∧
    (create_todo [] (some (Body.mk (some "") none))).status = 201 ∧
    ¬ (create_todo [] (some (Body.mk (some "") none))).status = 400 := by
  refine ⟨?_, rfl, by decide⟩
  rintro ⟨str, hstr, hne⟩
  simp at hstr
  exact hne hstr.symm

/-- Claim C6 as amended: `POST /todos` requires the presence of a `task`
field (its value may be empty): it answers 400 and leaves the store
unchanged exactly when the body is absent or has no `task` key, and 201
otherwise; the optional `done` field defaults to `false` when absent. -/
theorem create_requires_task_presence (store : List Todo)
    (data : Option Body) :
    ((create_todo store data).status = 400 ↔ data.bind Body.task = none) ∧
    ((create_todo store data).status = 201 ↔ (data.bind Body.task).isSome) ∧
    (data.bind Body.task = none →
      create_todo store data =
        CreateResult.badRequest "Task description is required" store) ∧
    (∀ d task, data = some d → d.task = some task →
      create_todo store data =
        CreateResult.created "To-do item created"
          (add_todo_links
            { id := new_todo_id store, task := task, done := d.done.getD false })
          (store ++
            [{ id := new_todo_id store, task := task,
               done := d.done.getD false }])) := by
  match data with
  | none => simp [create_todo, CreateResult.status, Option.bind]
  | some d =>
    match hd : d.task with
    | none =>
      refine ⟨?_, ?_, ?_, ?_⟩
      · simp [create_todo, CreateResult.status, Option.bind, hd]
      · simp [create_todo, CreateResult.status, Option.bind, hd]
      · simp [create_todo, Option.bind, hd]
      · rintro d2 task2 h hd2
        injection h with h
        subst h
        rw [hd] at hd2
        cases hd2
    | some task =>
      refine ⟨?_, ?_, ?_, ?_⟩
      · simp [create_todo, CreateResult.status, Option.bind, hd]
      · simp [create_todo, CreateResult.status, Option.bind, hd]
      · simp [Option.bind, hd]
      · rintro d2 task2 h hd2
        injection h with h
        subst h
        rw [hd] at hd2
        cases hd2
        simp [create_todo, hd]

/-- Witness for C6 (amended) : `POST /todos` with body `{"task": "X"}` on
the empty store creates id 1 with `done = false`. -/
theorem create_requires_task_presence_witness :
    create_todo [] (some { task := some "X", done := none }) =
      CreateResult.created "To-do item created"
        (add_todo_links { id := new_todo_id [], task := "X",
                          done := (Option.none).getD false })
        ([] ++
          [{ id := new_todo_id [], task := "X",
             done := (Option.none).getD false }]) :=
  (create_requires_task_presence [] (some { task := some "X", done := none })).2.2.2
    { task := some "X", done := none } "X" rfl rfl

/-- Claim C7: every successful create appends the new item at the end of the
store, assigning it id `max(existing ids) + 1`, or `1` on the empty store. -/
theorem create_id_assignment (store : List Todo) (data : Option Body)
    (msg : String) (body2 : TodoRepr) (store2 : List Todo)
    (h : create_todo store data = CreateResult.created msg body2 store2) :
    ∃ new_todo : Todo,
      store2 = store ++ [new_todo] ∧
      body2 = add_todo_links new_todo ∧
      (store = [] → new_todo.id = 1) ∧
      (∀ t ∈ store, t.id < new_todo.id) ∧
      (store ≠ [] → ∃ t ∈ store, new_todo.id = t.id + 1 ∧
        ∀ u ∈ store, u.id ≤ t.id) := by
  match data with
  | none => simp [create_todo] at h
  | some d =>
    match hd : d.task with
    | none => simp [create_todo, hd] at h
    | some task =>
      simp only [create_todo, hd] at h
      cases h
      refine ⟨{ id := new_todo_id store, task := task,
                done := d.done.getD false }, rfl, rfl, ?_, ?_, ?_⟩
      · intro hs
        subst hs
        rfl
      · intro t ht
        exact lt_max_id_plus_one (store.map Todo.id) t.id
          (List.mem_map_of_mem Todo.id ht)
      · exact fun hs => new_todo_id_spec store hs

/-- Witness for C7: `POST /todos` with `{"task": "X"}` on the 16-item sample
store (ids 1..16) appends a todo whose id is 17. -/
theorem create_id_assignment_witness :
    ∃ new_todo : Todo,
      initial_todos ++ [Todo.mk 17 "X" false] = initial_todos ++ [new_todo] ∧
      add_todo_links (Todo.mk 17 "X" false) = add_todo_links new_todo ∧
      (initial_todos = [] → new_todo.id = 1) ∧
      (∀ t ∈ initial_todos, t.id < new_todo.id) ∧
      (initial_todos ≠ [] → ∃ t ∈ initial_todos, new_todo.id = t.id + 1 ∧
        ∀ u ∈ initial_todos, u.id ≤ t.id) :=
  create_id_assignment initial_todos (some { task := some "X", done := none })
    "To-do item created" (add_todo_links (Todo.mk 17 "X" false))
    (initial_todos ++ [Todo.mk 17 "X" false]) (by rfl)

/-- Claim C8: `DELETE /todos/{id}` answers 200 with a message and a
`collection` link for every id — never 404 — and deleting an absent id
leaves the store unchanged. -/
theorem delete_never_404 (store : List Todo) (todo_id : Nat) :
    (delete_todo store todo_id).status = 200 ∧
    (delete_todo store todo_id).has_collection_link = true ∧
    (delete_todo store todo_id).message =
      "To-do item with ID " ++ toString todo_id ++ " deleted" ∧
    ((∀ t ∈ store, t.id ≠ todo_id) →
      (delete_todo store todo_id).store = store) := by
  refine ⟨rfl, rfl, rfl, fun h => ?_⟩
  show store.filter (fun t => t.id != todo_id) = store
  apply List.filter_eq_self.mpr
  intro a ha
  simpa [bne_iff_ne] using h a ha

/-- Witness for C8: deleting the absent id 999 from the sample store keeps
the store intact (and the response is the 200 payload by construction). -/
theorem delete_never_404_witness :
    (delete_todo initial_todos 999).store = initial_todos :=
  (delete_never_404 initial_todos 999).2.2.2 (by decide)

/-- Claim C9: a `PUT /todos/{id}` on an existing id whose body is absent or
provides neither `task` nor `done` answers 200 with the unchanged item and
leaves the whole store unchanged. -/
theorem empty_update_is_noop (store : List Todo) (todo_id : Nat) (t : Todo)
    (data : Option Body) (hfind : find_todo store todo_id = some t)
    (hdata : data = none ∨ data = some { task := none, done := none }) :
    update_todo store todo_id data =
      UpdateResult.ok "To-do item updated" (add_todo_links t) store := by
  have hrep := replace_first_self store todo_id t hfind
  obtain ⟨tid, ttask, tdone⟩ := t
  rcases hdata with rfl | rfl <;>
    simp [update_todo, hfind, hrep]

/-- Witness for C9: `PUT /todos/3` with no body on the sample store keeps
item 3 (and the whole store) as it was. -/
theorem empty_update_is_noop_witness :
    update_todo initial_todos 3 none =
      UpdateResult.ok "To-do item updated"
        (add_todo_links { id := 3, task := "Test the API", done := false })
        initial_todos :=
  empty_update_is_noop initial_todos 3
    { id := 3, task := "Test the API", done := false } none (by rfl)
    (Or.inl rfl)

/-- Claim C10: pairwise-distinct ids are an invariant of the store under
create, update and delete. -/
theorem id_uniqueness_invariant (store : List Todo)
    (h : (store.map Todo.id).Nodup) :
    (∀ data, ((create_todo store data).store.map Todo.id).Nodup) ∧
    (∀ todo_id data,
      ((update_todo store todo_id data).store.map Todo.id).Nodup) ∧
    (∀ todo_id, ((delete_todo store todo_id).store.map Todo.id).Nodup) := by
  refine ⟨?_, ?_, ?_⟩
  · intro data
    match data with
    | none => exact h
    | some d =>
      match hd : d.task with
      | none =>
        simp only [create_todo, hd, CreateResult.store]
        exact h
      | some task =>
        simp only [create_todo, hd, CreateResult.store]
        rw [List.map_append]
        refine List.Nodup.append h (List.nodup_singleton _) ?_
        intro a ha hmem
        simp only [List.map_cons, List.map_nil, List.mem_singleton] at hmem
        have hlt := lt_max_id_plus_one (store.map Todo.id) a ha
        simp only [new_todo_id] at hmem
        omega
  · intro todo_id data
    match hfind : find_todo store todo_id with
    | none =>
      simp only [update_todo, hfind, UpdateResult.store]
      exact h
    | some t =>
      simp only [update_todo, hfind, UpdateResult.store]
      rw [replace_first_map_id store todo_id
        { id := t.id,
          task := (data.getD { task := none, done := none }).task.getD t.task,
          done := (data.getD { task := none, done := none }).done.getD t.done }
        (find_todo_id store todo_id t hfind)]
      exact h
  · intro todo_id
    have hsub : ((store.filter (fun t => t.id != todo_id)).map Todo.id).Sublist
        (store.map Todo.id) :=
      (List.filter_sublist store).map Todo.id
    exact List.Nodup.sublist hsub h

/-- Witness for C10: on the sample store, whose 16 ids are distinct,
deleting id 3 leaves the remaining ids distinct. -/
theorem id_uniqueness_invariant_witness :
    ((delete_todo initial_todos 3).store.map Todo.id).Nodup :=
  (id_uniqueness_invariant initial_todos (by decide)).2.2 3

end ToDoApi
